import Mathlib

/-!
Shallow embedding of the Qualisem Productos warehouse app (src/app.py).

The SQLite database is modelled as an explicit state value of type DB holding
the productos and movimientos tables together with the AUTOINCREMENT counters
(SQLite assigns ids starting at 1). REAL columns are modelled as Rat, TEXT as
String, NULLable columns as Option. The DAO functions of the source are
translated one-for-one; a Python raise becomes Except.error, so an operation
that fails returns no successor state, which is exactly the source behaviour
(the connection is closed before any commit on every failure path).

Error mapping, following the taxonomy of the spec (section 7):
ValueError "La cantidad debe ser mayor a 0" becomes validationError,
ValueError "Producto no encontrado" becomes notFoundError,
ValueError "Stock insuficiente para registrar el consumo" becomes
insufficientStockError, and a violation of an SQL CHECK constraint becomes
integrityError.
-/

namespace Qualisem

/-- Movement kinds: the tipo column of movimientos, constrained by
CHECK tipo IN (ingreso, consumo, ajuste); the same Literal type annotates
registrar_movimiento in the source. -/
inductive Tipo where
  | ingreso
  | consumo
  | ajuste
deriving DecidableEq

/-- Text stored in the tipo column for each kind. -/
def Tipo.toStr : Tipo → String
  | .ingreso => "ingreso"
  | .consumo => "consumo"
  | .ajuste => "ajuste"

/-- Payment states: the estado_pago column, CHECK estado_pago IN (pagado, debe). -/
inductive EstadoPago where
  | pagado
  | debe
deriving DecidableEq

/-- Text stored in the estado_pago column. -/
def EstadoPago.toStr : EstadoPago → String
  | .pagado => "pagado"
  | .debe => "debe"

/-- Errors of the DAO layer, named after the taxonomy of the spec. -/
inductive AppError where
  | validationError (msg : String)
  | notFoundError
  | insufficientStockError
  | integrityError
deriving DecidableEq

/-- A row of the productos table. -/
structure Producto where
  id : Nat
  nombre : String
  ingrediente_activo : String
  categoria : String
  peligrosidad : String
  unidad : String
  empresa : Option String
  stock_minimo : Rat
  stock : Rat
deriving DecidableEq

/-- A row of the movimientos table. -/
structure Movimiento where
  id : Nat
  producto_id : Nat
  fecha : String
  tipo : Tipo
  cantidad : Rat
  usuario : Option String
  notas : Option String
  empresa : Option String
  estado_pago : Option EstadoPago
  costo_unitario : Option Rat
  destino : Option String
deriving DecidableEq

/-- The whole database: the two tables plus the AUTOINCREMENT counters. -/
structure DB where
  productos : List Producto
  movimientos : List Movimiento
  nextProductoId : Nat
  nextMovimientoId : Nat
deriving DecidableEq

/-- A freshly initialised database, as produced by init_db: both tables empty,
AUTOINCREMENT counters at 1. -/
def DB.empty : DB := ⟨[], [], 1, 1⟩

/-- HAZARD_KEYS of the source: the values accepted by the CHECK constraint on
the peligrosidad column. -/
def HAZARD_KEYS : List String := ["rojo", "amarillo", "azul", "verde"]

/-- The Python str.strip method: remove whitespace from both ends. -/
def pyStrip (s : String) : String :=
  ⟨((s.toList.dropWhile Char.isWhitespace).reverse.dropWhile Char.isWhitespace).reverse⟩

/-- Lexicographic order on character lists: the BINARY collation SQLite uses
to compare the stored text values (all ASCII here). -/
def textLt : List Char → List Char → Bool
  | [], [] => false
  | [], _ :: _ => true
  | _ :: _, [] => false
  | c :: cs, d :: ds => if c < d then true else if d < c then false else textLt cs ds

/-- The expression (empresa.strip() if empresa else None) of the source:
None and the empty string both store NULL, otherwise the trimmed text. -/
def normEmpresa : Option String → Option String
  | some e => if e = "" then none else some (pyStrip e)
  | none => none

/-- add_producto of the source: INSERT a new row with the three main text
fields trimmed and stock 0. The CHECK constraint on peligrosidad is part of
the schema, so an out-of-range hazard level fails the INSERT. -/
def add_producto (db : DB) (nombre ingrediente_activo categoria peligrosidad unidad : String)
    (empresa : Option String) (stock_minimo : Rat) : Except AppError DB :=
  if peligrosidad ∈ HAZARD_KEYS then
    .ok { db with
      productos := db.productos ++
        [{ id := db.nextProductoId,
           nombre := pyStrip nombre,
           ingrediente_activo := pyStrip ingrediente_activo,
           categoria := pyStrip categoria,
           peligrosidad := peligrosidad,
           unidad := unidad,
           empresa := normEmpresa empresa,
           stock_minimo := stock_minimo,
           stock := 0 }],
      nextProductoId := db.nextProductoId + 1 }
  else
    .error .integrityError

/-- The form-submit handler of the catalog tab of the source: it rejects the
input when nombre, ingrediente or categoria is falsy (the empty string) and
otherwise calls add_producto; a nonempty empresa field is passed through,
an empty one becomes None (the expression empresa_prod or None). -/
def tab_catalogo_submit (db : DB)
    (nombre ingrediente categoria peligrosidad unidad : String)
    (empresa_prod : String) (stock_min : Rat) : Except AppError DB :=
  if nombre = "" ∨ ingrediente = "" ∨ categoria = "" then
    .error (.validationError "Completa los campos obligatorios (*)")
  else
    add_producto db nombre ingrediente categoria peligrosidad unidad
      (if empresa_prod = "" then none else some empresa_prod) stock_min

/-- SELECT ... FROM productos WHERE id=? (get_producto of the source, and the
stock lookup at the start of registrar_movimiento, which uses the same WHERE). -/
def DB.get_producto (db : DB) (producto_id : Nat) : Option Producto :=
  db.productos.find? (fun p => decide (p.id = producto_id))

/-- update_producto of the source: UPDATE of every editable column (not stock)
on the rows matching the id, text fields trimmed. An UPDATE that matches no
row touches nothing and raises nothing; when a row is matched, the CHECK
constraint on peligrosidad is enforced on the updated row. -/
def update_producto (db : DB) (producto_id : Nat)
    (nombre ingrediente_activo categoria peligrosidad unidad : String)
    (empresa : Option String) (stock_minimo : Rat) : Except AppError DB :=
  if (∃ p ∈ db.productos, p.id = producto_id) ∧ peligrosidad ∉ HAZARD_KEYS then
    .error .integrityError
  else
    .ok { db with
      productos := db.productos.map (fun p =>
        if p.id = producto_id then
          { p with
            nombre := pyStrip nombre,
            ingrediente_activo := pyStrip ingrediente_activo,
            categoria := pyStrip categoria,
            peligrosidad := peligrosidad,
            unidad := unidad,
            empresa := normEmpresa empresa,
            stock_minimo := stock_minimo }
        else p) }

/-- delete_producto of the source: DELETE FROM productos WHERE id=?, with the
ON DELETE CASCADE foreign key (PRAGMA foreign_keys = ON) removing every
movement row referencing the product. -/
def delete_producto (db : DB) (producto_id : Nat) : DB :=
  { db with
    productos := db.productos.filter (fun p => decide (p.id ≠ producto_id)),
    movimientos := db.movimientos.filter (fun m => decide (m.producto_id ≠ producto_id)) }

/-- The committed tail of registrar_movimiento: the INSERT of the movement row
followed by UPDATE productos SET stock=? WHERE id=?, both made visible by the
single commit. -/
def commitMovimiento (db : DB) (producto_id : Nat) (tipo : Tipo) (cantidad : Rat)
    (usuario notas : Option String) (fecha_str : String) (empresa : Option String)
    (estado_pago : Option EstadoPago) (costo_unitario : Option Rat)
    (destino : Option String) (nuevo_stock : Rat) : DB :=
  { db with
    movimientos := db.movimientos ++
      [{ id := db.nextMovimientoId,
         producto_id := producto_id,
         fecha := fecha_str,
         tipo := tipo,
         cantidad := cantidad,
         usuario := usuario,
         notas := notas,
         empresa := empresa,
         estado_pago := estado_pago,
         costo_unitario := costo_unitario,
         destino := destino }],
    nextMovimientoId := db.nextMovimientoId + 1,
    productos := db.productos.map (fun p =>
      if p.id = producto_id then { p with stock := nuevo_stock } else p) }

/-- registrar_movimiento of the source: reject cantidad at most 0 before
touching the database, look the product up, compute the new stock by kind
(ingreso adds, consumo subtracts and rejects a negative result, ajuste takes
cantidad as the final stock), then insert the row and write the stock. -/
def registrar_movimiento (db : DB) (producto_id : Nat) (tipo : Tipo) (cantidad : Rat)
    (usuario notas : Option String) (fecha_str : String) (empresa : Option String)
    (estado_pago : Option EstadoPago) (costo_unitario : Option Rat)
    (destino : Option String) : Except AppError DB :=
  if cantidad ≤ 0 then
    .error (.validationError "La cantidad debe ser mayor a 0")
  else
    match db.get_producto producto_id with
    | none => .error .notFoundError
    | some row =>
      match tipo with
      | .ingreso =>
        .ok (commitMovimiento db producto_id tipo cantidad usuario notas fecha_str
          empresa estado_pago costo_unitario destino (row.stock + cantidad))
      | .consumo =>
        if row.stock - cantidad < 0 then
          .error .insufficientStockError
        else
          .ok (commitMovimiento db producto_id tipo cantidad usuario notas fecha_str
            empresa estado_pago costo_unitario destino (row.stock - cantidad))
      | .ajuste =>
        .ok (commitMovimiento db producto_id tipo cantidad usuario notas fecha_str
          empresa estado_pago costo_unitario destino cantidad)

/-- A row of the result set of movimientos_df: the selected movement columns
joined with the display attributes of the owning product. -/
structure MovRow where
  id : Nat
  fecha : String
  tipo : Tipo
  cantidad : Rat
  usuario : Option String
  notas : Option String
  empresa : Option String
  estado_pago : Option EstadoPago
  costo_unitario : Option Rat
  destino : Option String
  producto : String
  ingrediente_activo : String
  categoria : String
  peligrosidad : String
  unidad : String
deriving DecidableEq

/-- Projection of a joined (movement, product) pair onto the SELECT list of
movimientos_df. -/
def toRow (x : Movimiento × Producto) : MovRow :=
  { id := x.1.id,
    fecha := x.1.fecha,
    tipo := x.1.tipo,
    cantidad := x.1.cantidad,
    usuario := x.1.usuario,
    notas := x.1.notas,
    empresa := x.1.empresa,
    estado_pago := x.1.estado_pago,
    costo_unitario := x.1.costo_unitario,
    destino := x.1.destino,
    producto := x.2.nombre,
    ingrediente_activo := x.2.ingrediente_activo,
    categoria := x.2.categoria,
    peligrosidad := x.2.peligrosidad,
    unidad := x.2.unidad }

/-- The SQLite date function on the timestamp strings written by the app
(format YYYY-MM-DD HH MM SS): the date part is the first ten characters. -/
def dateOnly (s : String) : String := ⟨s.toList.take 10⟩

/-- SQL LIKE with a pattern wrapped in percent signs, as built by
movimientos_df for the empresa filter: an ASCII case-insensitive substring
test (the caller never passes the empty pattern, see movimientos_df). -/
def likeContains (v pat : String) : Bool :=
  decide (2 ≤ (v.toLower.splitOn pat.toLower).length)

/-- ORDER BY datetime(m.fecha) DESC, m.id DESC as a relation: x sorts before y
when its timestamp is later, ties broken by larger id. -/
def ordDesc (x y : Movimiento × Producto) : Prop :=
  textLt y.1.fecha.toList x.1.fecha.toList = true ∨ (y.1.fecha = x.1.fecha ∧ y.1.id ≤ x.1.id)

instance : DecidableRel ordDesc := fun x y =>
  inferInstanceAs (Decidable (textLt y.1.fecha.toList x.1.fecha.toList = true ∨ (y.1.fecha = x.1.fecha ∧ y.1.id ≤ x.1.id)))

/-- FROM movimientos m JOIN productos p ON p.id = m.producto_id. -/
def joinPairs (db : DB) : List (Movimiento × Producto) :=
  db.movimientos.filterMap (fun m =>
    (db.productos.find? (fun p => decide (p.id = m.producto_id))).map (fun p => (m, p)))

/-- movimientos_df of the source: the join, then one optional WHERE clause per
filter argument. Each clause is appended only when the Python argument is
truthy (for the strings: present and nonempty; for producto_id: present and
nonzero; for tipo and estado_pago: membership in the respective value tuple),
and the result is sorted most recent first. -/
def movimientos_df (db : DB) (f_ini f_fin : Option String) (producto_id : Option Nat)
    (tipo estado_pago empresa : Option String) : List MovRow :=
  let rows := joinPairs db
  let r1 := match f_ini with
    | some s => if s = "" then rows else
        rows.filter (fun x => decide (dateOnly s ≤ dateOnly x.1.fecha))
    | none => rows
  let r2 := match f_fin with
    | some s => if s = "" then r1 else
        r1.filter (fun x => decide (dateOnly x.1.fecha ≤ dateOnly s))
    | none => r1
  let r3 := match producto_id with
    | some pid => if pid = 0 then r2 else
        r2.filter (fun x => decide (x.1.producto_id = pid))
    | none => r2
  let r4 := match tipo with
    | some t => if t = "ingreso" ∨ t = "consumo" ∨ t = "ajuste" then
        r3.filter (fun x => decide (Tipo.toStr x.1.tipo = t))
      else r3
    | none => r3
  let r5 := match estado_pago with
    | some t => if t = "pagado" ∨ t = "debe" then
        r4.filter (fun x => match x.1.estado_pago with
          | some ep => decide (EstadoPago.toStr ep = t)
          | none => false)
      else r4
    | none => r4
  let r6 := match empresa with
    | some e => if e = "" then r5 else
        r5.filter (fun x => match x.1.empresa with
          | some v => likeContains v e
          | none => false)
    | none => r5
  (List.insertionSort ordDesc r6).map toRow

/-- The monto column of the payables tab: cantidad times costo_unitario, with
the NaN produced by a missing cost replaced by 0 by fillna. -/
def monto (r : MovRow) : Rat :=
  match r.costo_unitario with
  | some c => r.cantidad * c
  | none => 0

/-- The row set of the payables tab: movimientos_df restricted to ingreso
movements whose estado_pago is debe. -/
def tab_cxp_rows (db : DB) : List MovRow :=
  movimientos_df db none none none (some "ingreso") (some "debe") none

/-- The per-supplier row of the payables summary (groupby empresa with
dropna False): number of rows, total cantidad and total monto of the group
of the given supplier key. -/
def tab_cxp_resumen (db : DB) (empresa : Option String) : Nat × Rat × Rat :=
  let grp := (tab_cxp_rows db).filter (fun r => decide (r.empresa = empresa))
  (grp.length, (grp.map (fun r => r.cantidad)).sum, (grp.map monto).sum)

/-- The movements of one product, in insertion order. -/
def movsOf (db : DB) (producto_id : Nat) : List Movimiento :=
  db.movimientos.filter (fun m => decide (m.producto_id = producto_id))

/-- Modelled from the spec: the stock rule of section 4.2, for the refinement
claim comparing the stored stock with a fold over the ledger (receipt adds the
quantity, consumption subtracts it, adjustment replaces the stock with it). -/
def stockRule (s : Rat) (m : Movimiento) : Rat :=
  match m.tipo with
  | .ingreso => s + m.cantidad
  | .consumo => s - m.cantidad
  | .ajuste => m.cantidad

/-- The stored stock of every product row carrying the given id equals the
fold of the stock rule over the movements of that id, in insertion order. -/
def StockInv (db : DB) (producto_id : Nat) : Prop :=
  ∀ p ∈ db.productos, p.id = producto_id →
    p.stock = (movsOf db producto_id).foldl stockRule 0

/-- Every stored stock is non-negative. -/
def NonNegStock (db : DB) : Prop :=
  ∀ p ∈ db.productos, 0 ≤ p.stock

/-- The argument tuple of one registrar_movimiento call. -/
structure MovCall where
  producto_id : Nat
  tipo : Tipo
  cantidad : Rat
  usuario : Option String
  notas : Option String
  fecha_str : String
  empresa : Option String
  estado_pago : Option EstadoPago
  costo_unitario : Option Rat
  destino : Option String

/-- A sequence of registrar_movimiento calls, each of which must succeed. -/
def applyMovCalls (db : DB) : List MovCall → Except AppError DB
  | [] => .ok db
  | c :: cs =>
    match registrar_movimiento db c.producto_id c.tipo c.cantidad c.usuario c.notas
        c.fecha_str c.empresa c.estado_pago c.costo_unitario c.destino with
    | .ok db2 => applyMovCalls db2 cs
    | .error e => .error e

/-- Structural facts guaranteed by the SQLite schema: ids are assigned from 1
by AUTOINCREMENT and stay below the next counter, product ids are unique
(PRIMARY KEY), and every movement references an existing product (the enforced
foreign key). -/
def DB.wf (db : DB) : Prop :=
  (∀ p ∈ db.productos, 1 ≤ p.id ∧ p.id < db.nextProductoId) ∧
  (db.productos.map (fun p => p.id)).Nodup ∧
  (∀ m ∈ db.movimientos, m.id < db.nextMovimientoId) ∧
  (∀ m ∈ db.movimientos, ∃ p ∈ db.productos, p.id = m.producto_id)

end Qualisem

namespace Qualisem

/-- A small concrete catalog used by the witnesses: one product with stock 5
and no movements. -/
def demoDB : DB :=
  ⟨[⟨1, "Mancozeb 80 WP", "Mancozeb", "Fungicida", "amarillo", "kg", none, 10, 5⟩], [], 2, 1⟩

/-- A concrete state with two owed receipt movements of the supplier AgroX,
used by the witnesses (example scenario 3 of the spec). -/
def agroDB : DB :=
  ⟨[⟨1, "Mancozeb", "Mancozeb", "Fungicida", "amarillo", "kg", none, 0, 30⟩],
   [⟨1, 1, "2025-11-04 00:00:00", .ingreso, 10, none, none, some "AgroX", some .debe, some 5, none⟩,
    ⟨2, 1, "2025-11-04 00:00:00", .ingreso, 20, none, none, some "AgroX", some .debe, some 3, none⟩],
   2, 3⟩

end Qualisem

namespace Qualisem

/-- Looking a product up among the rows updated by UPDATE productos SET
stock=? WHERE id=? finds the updated row. -/
theorem find_map_set_stock (l : List Producto) (pid : Nat) (s : Rat) :
    (l.map (fun p => if p.id = pid then { p with stock := s } else p)).find?
        (fun p => decide (p.id = pid))
      = (l.find? (fun p => decide (p.id = pid))).map (fun p => { p with stock := s }) := by
  induction l with
  | nil => rfl
  | cons q l ih =>
    by_cases hq : q.id = pid
    · simp [List.find?, hq]
    · simp [List.find?, hq, ih]

/-- C4: registrar_movimiento with a quantity at most 0 fails with the
validation error before anything is read or written; in particular the
product id is not inspected, so the same failure occurs for a nonexistent
product. Returning an error yields no successor state, which encodes that
stock and movement count are unchanged. -/
theorem c4_cantidad_no_positiva (db : DB) (producto_id : Nat) (tipo : Tipo) (cantidad : Rat)
    (usuario notas : Option String) (fecha_str : String) (empresa : Option String)
    (estado_pago : Option EstadoPago) (costo_unitario : Option Rat) (destino : Option String)
    (hq : cantidad ≤ 0) :
    registrar_movimiento db producto_id tipo cantidad usuario notas fecha_str empresa
        estado_pago costo_unitario destino
      = .error (.validationError "La cantidad debe ser mayor a 0") := by
  unfold registrar_movimiento
  rw [if_pos hq]

/-- Witness for C4 at a concrete input: the product id 7 does not exist in the
empty database and the call still fails with the validation error. -/
theorem c4_witness :
    DB.empty.get_producto 7 = none ∧
    registrar_movimiento DB.empty 7 Tipo.consumo 0 none none "2025-11-04 00:00:00" none
        none none none
      = .error (.validationError "La cantidad debe ser mayor a 0") :=
  ⟨rfl, c4_cantidad_no_positiva DB.empty 7 Tipo.consumo 0 none none "2025-11-04 00:00:00"
    none none none none (by decide)⟩

/-- C3: a consumption of more than the available stock of an existing product
fails with the insufficient-stock error; no successor state is produced, so
neither the stock nor the ledger changes. -/
theorem c3_consumo_insuficiente (db : DB) (producto_id : Nat) (row : Producto) (cantidad : Rat)
    (usuario notas : Option String) (fecha_str : String) (empresa : Option String)
    (estado_pago : Option EstadoPago) (costo_unitario : Option Rat) (destino : Option String)
    (hrow : db.get_producto producto_id = some row) (h0 : 0 ≤ row.stock)
    (hq : row.stock < cantidad) :
    registrar_movimiento db producto_id Tipo.consumo cantidad usuario notas fecha_str empresa
        estado_pago costo_unitario destino
      = .error .insufficientStockError := by
  unfold registrar_movimiento
  rw [if_neg (not_le.mpr (lt_of_le_of_lt h0 hq)), hrow]
  exact if_pos (sub_neg.mpr hq)

/-- Witness for C3: consuming 100 from a stock of 5 fails. -/
theorem c3_witness :
    registrar_movimiento demoDB 1 Tipo.consumo 100 none none "2025-11-04 00:00:00" none
        none none none
      = .error .insufficientStockError :=
  c3_consumo_insuficiente demoDB 1
    ⟨1, "Mancozeb 80 WP", "Mancozeb", "Fungicida", "amarillo", "kg", none, 10, 5⟩
    100 none none "2025-11-04 00:00:00" none none none none rfl (by decide) (by decide)

/-- C5: a successful adjustment of an existing product stores the quantity as
the absolute new stock of that product. -/
theorem c5_ajuste_absoluto (db : DB) (producto_id : Nat) (row : Producto) (cantidad : Rat)
    (usuario notas : Option String) (fecha_str : String) (empresa : Option String)
    (estado_pago : Option EstadoPago) (costo_unitario : Option Rat) (destino : Option String)
    (db2 : DB)
    (hrow : db.get_producto producto_id = some row) (hq : 0 < cantidad)
    (h : registrar_movimiento db producto_id Tipo.ajuste cantidad usuario notas fecha_str empresa
        estado_pago costo_unitario destino = .ok db2) :
    db2.get_producto producto_id = some { row with stock := cantidad } := by
  unfold registrar_movimiento at h
  rw [if_neg (not_le.mpr hq), hrow] at h
  cases h
  show (commitMovimiento db producto_id Tipo.ajuste cantidad usuario notas fecha_str empresa
    estado_pago costo_unitario destino cantidad).get_producto producto_id = _
  unfold commitMovimiento DB.get_producto
  simp only [find_map_set_stock]
  have : db.productos.find? (fun p => decide (p.id = producto_id)) = some row := hrow
  rw [this]
  rfl

/-- Witness for C5: adjusting a product whose stock is 5 with quantity 7
leaves stock exactly 7 (example scenario 4 of the spec). -/
theorem c5_witness :
    (⟨[⟨1, "Mancozeb 80 WP", "Mancozeb", "Fungicida", "amarillo", "kg", none, 10, 7⟩],
      [⟨1, 1, "2025-11-04 00:00:00", Tipo.ajuste, 7, none, none, none, none, none, none⟩],
      2, 2⟩ : DB).get_producto 1
      = some ⟨1, "Mancozeb 80 WP", "Mancozeb", "Fungicida", "amarillo", "kg", none, 10, 7⟩ :=
  c5_ajuste_absoluto demoDB 1
    ⟨1, "Mancozeb 80 WP", "Mancozeb", "Fungicida", "amarillo", "kg", none, 10, 5⟩
    7 none none "2025-11-04 00:00:00" none none none none _ rfl (by decide) rfl

end Qualisem

namespace Qualisem

/-- Case analysis of a successful registrar_movimiento call: the quantity was
positive, the product was found, and the new state is the committed insert
plus stock write, with the stock computed by kind. -/
theorem registrar_ok_cases (db db2 : DB) (producto_id : Nat) (tipo : Tipo) (cantidad : Rat)
    (usuario notas : Option String) (fecha_str : String) (empresa : Option String)
    (estado_pago : Option EstadoPago) (costo_unitario : Option Rat) (destino : Option String)
    (hr : registrar_movimiento db producto_id tipo cantidad usuario notas fecha_str empresa
      estado_pago costo_unitario destino = .ok db2) :
    0 < cantidad ∧
    ∃ row, db.get_producto producto_id = some row ∧
      ((tipo = Tipo.ingreso ∧
          db2 = commitMovimiento db producto_id tipo cantidad usuario notas fecha_str empresa
            estado_pago costo_unitario destino (row.stock + cantidad)) ∨
       (tipo = Tipo.consumo ∧ 0 ≤ row.stock - cantidad ∧
          db2 = commitMovimiento db producto_id tipo cantidad usuario notas fecha_str empresa
            estado_pago costo_unitario destino (row.stock - cantidad)) ∨
       (tipo = Tipo.ajuste ∧
          db2 = commitMovimiento db producto_id tipo cantidad usuario notas fecha_str empresa
            estado_pago costo_unitario destino cantidad)) := by
  unfold registrar_movimiento at hr
  split at hr
  · exact Except.noConfusion hr
  · rename_i hc
    refine ⟨not_le.mp hc, ?_⟩
    split at hr
    · exact Except.noConfusion hr
    · rename_i row heq
      refine ⟨row, heq, ?_⟩
      split at hr
      · cases hr
        exact Or.inl ⟨rfl, rfl⟩
      · split at hr
        · exact Except.noConfusion hr
        · rename_i hneg
          cases hr
          exact Or.inr (Or.inl ⟨rfl, not_lt.mp hneg, rfl⟩)
      · cases hr
        exact Or.inr (Or.inr ⟨rfl, rfl⟩)

/-- The insert-and-update tail of registrar_movimiento keeps every stock
non-negative when the written stock is non-negative. -/
theorem nonneg_commit (db : DB) (producto_id : Nat) (tipo : Tipo) (cantidad : Rat)
    (usuario notas : Option String) (fecha_str : String) (empresa : Option String)
    (estado_pago : Option EstadoPago) (costo_unitario : Option Rat) (destino : Option String)
    (s : Rat) (h : NonNegStock db) (hs : 0 ≤ s) :
    NonNegStock (commitMovimiento db producto_id tipo cantidad usuario notas fecha_str
      empresa estado_pago costo_unitario destino s) := by
  intro p hp
  simp only [commitMovimiento, List.mem_map] at hp
  obtain ⟨q, hq, rfl⟩ := hp
  by_cases hid : q.id = producto_id
  · rw [if_pos hid]
    exact hs
  · rw [if_neg hid]
    exact h q hq

/-- A successful registrar_movimiento call keeps every stock non-negative. -/
theorem nonneg_registrar (db db2 : DB) (producto_id : Nat) (tipo : Tipo) (cantidad : Rat)
    (usuario notas : Option String) (fecha_str : String) (empresa : Option String)
    (estado_pago : Option EstadoPago) (costo_unitario : Option Rat) (destino : Option String)
    (h : NonNegStock db)
    (hr : registrar_movimiento db producto_id tipo cantidad usuario notas fecha_str empresa
      estado_pago costo_unitario destino = .ok db2) :
    NonNegStock db2 := by
  obtain ⟨hc, row, hrow, hcase⟩ := registrar_ok_cases _ _ _ _ _ _ _ _ _ _ _ _ hr
  have hrow_nn : 0 ≤ row.stock := h row (List.mem_of_find?_eq_some hrow)
  rcases hcase with ⟨_, rfl⟩ | ⟨_, hge, rfl⟩ | ⟨_, rfl⟩
  · exact nonneg_commit _ _ _ _ _ _ _ _ _ _ _ _ h (add_nonneg hrow_nn hc.le)
  · exact nonneg_commit _ _ _ _ _ _ _ _ _ _ _ _ h hge
  · exact nonneg_commit _ _ _ _ _ _ _ _ _ _ _ _ h hc.le

/-- A successful INSERT of a catalog row keeps every stock non-negative: the
new row starts at stock 0. -/
theorem nonneg_add (db db2 : DB) (nombre ingrediente_activo categoria peligrosidad unidad : String)
    (empresa : Option String) (stock_minimo : Rat)
    (h : NonNegStock db)
    (ha : add_producto db nombre ingrediente_activo categoria peligrosidad unidad empresa
      stock_minimo = .ok db2) :
    NonNegStock db2 := by
  unfold add_producto at ha
  split at ha
  · cases ha
    intro p hp
    rcases List.mem_append.mp hp with h1 | h2
    · exact h p h1
    · rw [List.mem_singleton.mp h2]
  · exact Except.noConfusion ha

/-- update_producto does not write the stock column, so it keeps every stock
non-negative. -/
theorem nonneg_update (db db2 : DB) (producto_id : Nat)
    (nombre ingrediente_activo categoria peligrosidad unidad : String)
    (empresa : Option String) (stock_minimo : Rat)
    (h : NonNegStock db)
    (hu : update_producto db producto_id nombre ingrediente_activo categoria peligrosidad
      unidad empresa stock_minimo = .ok db2) :
    NonNegStock db2 := by
  unfold update_producto at hu
  split at hu
  · exact Except.noConfusion hu
  · cases hu
    intro p hp
    simp only [List.mem_map] at hp
    obtain ⟨q, hq, rfl⟩ := hp
    by_cases hid : q.id = producto_id
    · rw [if_pos hid]
      exact h q hq
    · rw [if_neg hid]
      exact h q hq

end Qualisem

namespace Qualisem

/-- C2: starting from any state whose stocks are all non-negative, every
catalog or ledger operation keeps every stored stock non-negative. An
operation that fails returns no successor state, which encodes failure
without mutation, so the conjuncts cover the successful outcomes and the
always-successful delete. -/
theorem c2_stock_nunca_negativo (db : DB) (h : NonNegStock db) :
    (∀ nombre ingrediente_activo categoria peligrosidad unidad empresa stock_minimo db2,
        add_producto db nombre ingrediente_activo categoria peligrosidad unidad empresa
          stock_minimo = .ok db2 → NonNegStock db2) ∧
    (∀ nombre ingrediente categoria peligrosidad unidad empresa_prod stock_min db2,
        tab_catalogo_submit db nombre ingrediente categoria peligrosidad unidad empresa_prod
          stock_min = .ok db2 → NonNegStock db2) ∧
    (∀ producto_id nombre ingrediente_activo categoria peligrosidad unidad empresa stock_minimo db2,
        update_producto db producto_id nombre ingrediente_activo categoria peligrosidad unidad
          empresa stock_minimo = .ok db2 → NonNegStock db2) ∧
    (∀ producto_id, NonNegStock (delete_producto db producto_id)) ∧
    (∀ producto_id tipo cantidad usuario notas fecha_str empresa estado_pago costo_unitario
        destino db2,
        registrar_movimiento db producto_id tipo cantidad usuario notas fecha_str empresa
          estado_pago costo_unitario destino = .ok db2 → NonNegStock db2) := by
  refine ⟨?_, ?_, ?_, ?_, ?_⟩
  · intro n i c pel uni emp sm db2 ha
    exact nonneg_add db db2 n i c pel uni emp sm h ha
  · intro n i c pel uni emp sm db2 hs
    unfold tab_catalogo_submit at hs
    split at hs
    · exact Except.noConfusion hs
    · exact nonneg_add db db2 n i c pel uni _ sm h hs
  · intro pid n i c pel uni emp sm db2 hu
    exact nonneg_update db db2 pid n i c pel uni emp sm h hu
  · intro pid p hp
    exact h p (List.mem_of_mem_filter hp)
  · intro pid tipo cant u nt f e ep cu d db2 hr
    exact nonneg_registrar db db2 pid tipo cant u nt f e ep cu d h hr

/-- Witness for C2 at a concrete state: deleting the only product of demoDB
keeps all stocks non-negative. -/
theorem c2_witness : NonNegStock (delete_producto demoDB 1) :=
  (c2_stock_nunca_negativo demoDB (by intro p hp; fin_cases hp; decide)).2.2.2.1 1

/-- The movement list of a product after the committed insert: the old list,
plus the new row exactly when it references that product. -/
theorem movsOf_commit (db : DB) (tgt pid : Nat) (tipo : Tipo) (cantidad : Rat)
    (usuario notas : Option String) (fecha_str : String) (empresa : Option String)
    (estado_pago : Option EstadoPago) (costo_unitario : Option Rat) (destino : Option String)
    (s : Rat) :
    movsOf (commitMovimiento db tgt tipo cantidad usuario notas fecha_str empresa estado_pago
        costo_unitario destino s) pid
      = movsOf db pid ++
        (if tgt = pid then
          [⟨db.nextMovimientoId, tgt, fecha_str, tipo, cantidad, usuario, notas, empresa,
            estado_pago, costo_unitario, destino⟩]
         else []) := by
  unfold movsOf commitMovimiento
  rw [List.filter_append]
  congr 1
  by_cases htgt : tgt = pid
  · simp [htgt]
  · simp [htgt]

/-- The committed insert plus stock write preserves the ledger-fold invariant
of any product id, provided the written stock is the stock rule applied to
the stock that was read. -/
theorem stockInv_commit (db : DB) (pid tgt : Nat) (tipo : Tipo) (cantidad : Rat)
    (usuario notas : Option String) (fecha_str : String) (empresa : Option String)
    (estado_pago : Option EstadoPago) (costo_unitario : Option Rat) (destino : Option String)
    (row : Producto) (s : Rat)
    (hinv : StockInv db pid)
    (hrow : db.get_producto tgt = some row)
    (hs : s = stockRule row.stock
      ⟨db.nextMovimientoId, tgt, fecha_str, tipo, cantidad, usuario, notas, empresa,
        estado_pago, costo_unitario, destino⟩) :
    StockInv (commitMovimiento db tgt tipo cantidad usuario notas fecha_str empresa estado_pago
      costo_unitario destino s) pid := by
  intro p hp hpid
  rw [movsOf_commit]
  simp only [commitMovimiento, List.mem_map] at hp
  obtain ⟨q, hq, rfl⟩ := hp
  by_cases htgt : tgt = pid
  · subst htgt
    rw [if_pos rfl, List.foldl_append]
    have hrid : row.id = tgt := by simpa using List.find?_some hrow
    have hrstock : row.stock = (movsOf db tgt).foldl stockRule 0 :=
      hinv row (List.mem_of_find?_eq_some hrow) hrid
    by_cases hqid : q.id = tgt
    · rw [if_pos hqid] at hpid ⊢
      show s = _
      rw [hs, hrstock]
      rfl
    · rw [if_neg hqid] at hpid
      exact absurd hpid hqid
  · rw [if_neg htgt, List.append_nil]
    by_cases hqid : q.id = tgt
    · rw [if_pos hqid] at hpid
      exact absurd (hqid.symm.trans hpid) htgt
    · rw [if_neg hqid] at hpid ⊢
      exact hinv q hq hpid

/-- A successful registrar_movimiento call preserves the ledger-fold
invariant of every product id. -/
theorem stockInv_registrar (db db2 : DB) (pid producto_id : Nat) (tipo : Tipo) (cantidad : Rat)
    (usuario notas : Option String) (fecha_str : String) (empresa : Option String)
    (estado_pago : Option EstadoPago) (costo_unitario : Option Rat) (destino : Option String)
    (hinv : StockInv db pid)
    (hr : registrar_movimiento db producto_id tipo cantidad usuario notas fecha_str empresa
      estado_pago costo_unitario destino = .ok db2) :
    StockInv db2 pid := by
  obtain ⟨hc, row, hrow, hcase⟩ := registrar_ok_cases _ _ _ _ _ _ _ _ _ _ _ _ hr
  rcases hcase with ⟨ht, rfl⟩ | ⟨ht, hge, rfl⟩ | ⟨ht, rfl⟩ <;> subst ht
  · exact stockInv_commit db pid _ _ _ _ _ _ _ _ _ _ row _ hinv hrow rfl
  · exact stockInv_commit db pid _ _ _ _ _ _ _ _ _ _ row _ hinv hrow rfl
  · exact stockInv_commit db pid _ _ _ _ _ _ _ _ _ _ row _ hinv hrow rfl

/-- A successful add_producto establishes the ledger-fold invariant for the
id it assigns, provided that id is fresh for both tables, which is how the
AUTOINCREMENT counter behaves. -/
theorem stockInv_add (db db2 : DB)
    (nombre ingrediente_activo categoria peligrosidad unidad : String)
    (empresa : Option String) (stock_minimo : Rat)
    (ha : add_producto db nombre ingrediente_activo categoria peligrosidad unidad empresa
      stock_minimo = .ok db2)
    (hpfresh : ∀ p ∈ db.productos, p.id ≠ db.nextProductoId)
    (hmfresh : ∀ m ∈ db.movimientos, m.producto_id ≠ db.nextProductoId) :
    StockInv db2 db.nextProductoId := by
  unfold add_producto at ha
  split at ha
  · cases ha
    intro p hp hpid
    have hmovs : movsOf db db.nextProductoId = [] := by
      apply List.filter_eq_nil_iff.mpr
      intro m hm
      simpa using hmfresh m hm
    rcases List.mem_append.mp hp with h1 | h2
    · exact absurd hpid (hpfresh p h1)
    · rw [List.mem_singleton.mp h2]
      show (0 : Rat) = (movsOf db db.nextProductoId).foldl stockRule 0
      rw [hmovs]
      rfl
  · exact Except.noConfusion ha

/-- A sequence of successful registrar_movimiento calls preserves the
ledger-fold invariant of every product id. -/
theorem stockInv_applyMovCalls (calls : List MovCall) :
    ∀ db db2 pid, StockInv db pid → applyMovCalls db calls = .ok db2 → StockInv db2 pid := by
  induction calls with
  | nil =>
    intro db db2 pid hinv h
    cases h
    exact hinv
  | cons c cs ih =>
    intro db db2 pid hinv h
    unfold applyMovCalls at h
    cases hr : registrar_movimiento db c.producto_id c.tipo c.cantidad c.usuario c.notas
        c.fecha_str c.empresa c.estado_pago c.costo_unitario c.destino with
    | ok dbm =>
      rw [hr] at h
      exact ih dbm db2 pid
        (stockInv_registrar db dbm pid c.producto_id c.tipo c.cantidad c.usuario c.notas
          c.fecha_str c.empresa c.estado_pago c.costo_unitario c.destino hinv hr) h
    | error e =>
      rw [hr] at h
      exact Except.noConfusion h

end Qualisem

namespace Qualisem

/-- C1: a product is created with stock 0 and an id fresh for both tables,
and from then on every sequence of successful registrar_movimiento calls
keeps the stored stock of every row carrying that id equal to the fold of
the section 4.2 stock rule over the movements of that id in insertion
order; no other operation of the sequence writes the stock column, so the
stock is never edited independently of the ledger. -/
theorem c1_stock_es_fold_del_ledger :
    (∀ db db1 nombre ingrediente_activo categoria peligrosidad unidad empresa stock_minimo,
        add_producto db nombre ingrediente_activo categoria peligrosidad unidad empresa
          stock_minimo = .ok db1 →
        (∀ p ∈ db.productos, p.id ≠ db.nextProductoId) →
        (∀ m ∈ db.movimientos, m.producto_id ≠ db.nextProductoId) →
        StockInv db1 db.nextProductoId) ∧
    (∀ db db2 producto_id calls, StockInv db producto_id →
        applyMovCalls db calls = .ok db2 → StockInv db2 producto_id) := by
  constructor
  · intro db db1 n i c pel uni emp sm ha hpfresh hmfresh
    exact stockInv_add db db1 n i c pel uni emp sm ha hpfresh hmfresh
  · intro db db2 pid calls hinv h
    exact stockInv_applyMovCalls calls db db2 pid hinv h

/-- Witness for C1: create a product in the empty database and run one
successful adjustment movement of quantity 7; the resulting state satisfies
the ledger-fold invariant for the new id. -/
theorem c1_witness :
    StockInv
      ⟨[⟨1, "Mancozeb 80 WP", "Mancozeb", "Fungicida", "amarillo", "kg", none, 10, 7⟩],
       [⟨1, 1, "2025-11-04 00:00:00", Tipo.ajuste, 7, none, none, none, none, none, none⟩],
       2, 2⟩ 1 :=
  c1_stock_es_fold_del_ledger.2
    ⟨[⟨1, "Mancozeb 80 WP", "Mancozeb", "Fungicida", "amarillo", "kg", none, 10, 0⟩], [], 2, 1⟩
    _ 1 [⟨1, Tipo.ajuste, 7, none, none, "2025-11-04 00:00:00", none, none, none, none⟩]
    (c1_stock_es_fold_del_ledger.1 DB.empty
      ⟨[⟨1, "Mancozeb 80 WP", "Mancozeb", "Fungicida", "amarillo", "kg", none, 10, 0⟩], [], 2, 1⟩
      "Mancozeb 80 WP" "Mancozeb" "Fungicida" "amarillo" "kg" none 10 rfl
      (by simp [DB.empty]) (by simp [DB.empty]))
    rfl

end Qualisem

namespace Qualisem

/-- C6: deleting a product removes its catalog row and, through the enforced
cascade, every movement row referencing it, and a subsequent movimientos_df
call filtered by that product id returns the empty row set. -/
theorem c6_delete_cascada (db : DB) (p : Producto) (hwf : db.wf) (hp : p ∈ db.productos) :
    (∀ q ∈ (delete_producto db p.id).productos, q.id ≠ p.id) ∧
    (∀ m ∈ (delete_producto db p.id).movimientos, m.producto_id ≠ p.id) ∧
    movimientos_df (delete_producto db p.id) none none (some p.id) none none none = [] := by
  have hpid0 : p.id ≠ 0 := by
    have h1 := (hwf.1 p hp).1
    omega
  refine ⟨?_, ?_, ?_⟩
  · intro q hq
    simpa using (List.mem_filter.mp hq).2
  · intro m hm
    simpa using (List.mem_filter.mp hm).2
  · have hnil : (joinPairs (delete_producto db p.id)).filter
        (fun x => decide (x.1.producto_id = p.id)) = [] := by
      apply List.filter_eq_nil_iff.mpr
      intro x hx
      simp only [joinPairs, List.mem_filterMap] at hx
      obtain ⟨m, hm, hmx⟩ := hx
      rw [Option.map_eq_some'] at hmx
      obtain ⟨p2, hfind, hx2⟩ := hmx
      have hm2 : m.producto_id ≠ p.id := by
        simpa using (List.mem_filter.mp hm).2
      rw [← hx2]
      simpa using hm2
    simp only [movimientos_df]
    rw [if_neg hpid0, hnil]
    rfl

/-- Witness for C6: deleting product 1 of agroDB empties its filtered
movement history. -/
theorem c6_witness :
    movimientos_df (delete_producto agroDB 1) none none (some 1) none none none = [] :=
  (c6_delete_cascada agroDB ⟨1, "Mancozeb", "Mancozeb", "Fungicida", "amarillo", "kg", none, 0, 30⟩
    (by unfold DB.wf; decide) (List.mem_singleton.mpr rfl)).2.2

/-- Counterexample for C7 as stated: a name consisting of one blank is empty
after trimming, yet the create path does not fail with a validation error;
it succeeds and stores the product with an empty name, because the source
checks falsiness of the raw strings before add_producto trims them. -/
theorem c7_counterexample :
    pyStrip " " = "" ∧
    tab_catalogo_submit DB.empty " " "Mancozeb" "Fungicida" "rojo" "L" "" 0
      = .ok ⟨[⟨1, "", "Mancozeb", "Fungicida", "rojo", "L", none, 0, 0⟩], [], 2, 1⟩ :=
  ⟨rfl, rfl⟩

/-- C7 amended: the create path fails with the validation error exactly when
name, active ingredient or category is the empty string before trimming
(whitespace-only values pass the check and are stored empty after trimming);
a hazard level outside the enumeration makes the insert fail on the storage
check constraint with no product stored; on success the name, active
ingredient, category and supplier are stored trimmed. -/
theorem c7_amended (db : DB) (nombre ingrediente categoria peligrosidad unidad : String)
    (empresa_prod : String) (stock_min : Rat) :
    ((nombre = "" ∨ ingrediente = "" ∨ categoria = "") →
      tab_catalogo_submit db nombre ingrediente categoria peligrosidad unidad empresa_prod
        stock_min = .error (.validationError "Completa los campos obligatorios (*)")) ∧
    (nombre ≠ "" → ingrediente ≠ "" → categoria ≠ "" → peligrosidad ∉ HAZARD_KEYS →
      tab_catalogo_submit db nombre ingrediente categoria peligrosidad unidad empresa_prod
        stock_min = .error .integrityError) ∧
    (∀ db2, tab_catalogo_submit db nombre ingrediente categoria peligrosidad unidad empresa_prod
        stock_min = .ok db2 →
      db2 = { db with
        productos := db.productos ++
          [⟨db.nextProductoId, pyStrip nombre, pyStrip ingrediente, pyStrip categoria,
            peligrosidad, unidad,
            (if empresa_prod = "" then none else some (pyStrip empresa_prod)), stock_min, 0⟩],
        nextProductoId := db.nextProductoId + 1 }) := by
  refine ⟨?_, ?_, ?_⟩
  · intro h
    unfold tab_catalogo_submit
    rw [if_pos h]
  · intro h1 h2 h3 h4
    unfold tab_catalogo_submit
    rw [if_neg (by simp [h1, h2, h3])]
    unfold add_producto
    rw [if_neg h4]
  · intro db2 hok
    unfold tab_catalogo_submit at hok
    split at hok
    · exact Except.noConfusion hok
    · unfold add_producto at hok
      split at hok
      · cases hok
        by_cases he : empresa_prod = ""
        · simp [normEmpresa, he]
        · simp [normEmpresa, he]
      · exact Except.noConfusion hok

/-- Witness for C7 amended: the truly empty name is rejected with the
validation error. -/
theorem c7_witness :
    tab_catalogo_submit DB.empty "" "Mancozeb" "Fungicida" "rojo" "L" "" 0
      = .error (.validationError "Completa los campos obligatorios (*)") :=
  (c7_amended DB.empty "" "Mancozeb" "Fungicida" "rojo" "L" "" 0).1 (Or.inl rfl)

/-- Counterexample for C8 as stated: product id 5 does not exist in demoDB,
yet update_producto completes without any error and returns the state
unchanged, because the source runs a bare UPDATE and never inspects the
number of affected rows. -/
theorem c8_counterexample :
    demoDB.get_producto 5 = none ∧
    update_producto demoDB 5 "Nuevo" "Ing" "Cat" "rojo" "L" none 0 = .ok demoDB :=
  ⟨rfl, rfl⟩

/-- C8 amended: updating a nonexistent product id is a silent no-op: the call
raises no error and the catalog is returned unchanged. -/
theorem c8_amended (db : DB) (producto_id : Nat)
    (nombre ingrediente_activo categoria peligrosidad unidad : String)
    (empresa : Option String) (stock_minimo : Rat)
    (h : db.get_producto producto_id = none) :
    update_producto db producto_id nombre ingrediente_activo categoria peligrosidad unidad
      empresa stock_minimo = .ok db := by
  have hall : ∀ p ∈ db.productos, p.id ≠ producto_id := by
    intro p hp
    simpa using List.find?_eq_none.mp h p hp
  have hcond : ¬((∃ p ∈ db.productos, p.id = producto_id) ∧ peligrosidad ∉ HAZARD_KEYS) := by
    rintro ⟨⟨p, hp, hpe⟩, -⟩
    exact hall p hp hpe
  have hmap : db.productos.map (fun p =>
      if p.id = producto_id then
        { p with
          nombre := pyStrip nombre,
          ingrediente_activo := pyStrip ingrediente_activo,
          categoria := pyStrip categoria,
          peligrosidad := peligrosidad,
          unidad := unidad,
          empresa := normEmpresa empresa,
          stock_minimo := stock_minimo }
      else p) = db.productos :=
    (List.map_congr_left (fun p hp => if_neg (hall p hp))).trans (List.map_id _)
  unfold update_producto
  rw [if_neg hcond, hmap]

/-- Witness for C8 amended: updating the nonexistent id 9 of demoDB returns
the state unchanged with no error. -/
theorem c8_witness :
    update_producto demoDB 9 "Nuevo" "Ing" "Cat" "verde" "L" none 1 = .ok demoDB :=
  c8_amended demoDB 9 "Nuevo" "Ing" "Cat" "verde" "L" none 1 rfl

end Qualisem

namespace Qualisem

/-- The tipo filter clause of movimientos_df with parameter ingreso tests the
kind itself. -/
theorem tipoFilter_eq :
    (fun (x : Movimiento × Producto) => decide (Tipo.toStr x.1.tipo = "ingreso"))
      = (fun x => decide (x.1.tipo = Tipo.ingreso)) := by
  funext x
  cases h : x.1.tipo <;> simp [Tipo.toStr, h]

/-- The estado_pago filter clause of movimientos_df with parameter debe tests
the stored payment state itself; a NULL state never matches. -/
theorem estadoFilter_eq :
    (fun (x : Movimiento × Producto) => match x.1.estado_pago with
      | some ep => decide (EstadoPago.toStr ep = "debe")
      | none => false)
      = (fun x => decide (x.1.estado_pago = some EstadoPago.debe)) := by
  funext x
  cases h : x.1.estado_pago with
  | none => simp [h]
  | some ep => cases ep <;> simp [EstadoPago.toStr, h]

/-- The joined, filtered and projected payable rows carry exactly the
cantidad and costo_unitario of the ingreso-debe movements of the given
supplier, in ledger order: the join loses no movement because every movement
references an existing product. -/
theorem cxp_pipeline_spec (prods : List Producto) (ms : List Movimiento) (e : Option String)
    (hfk : ∀ m ∈ ms, ∃ p ∈ prods, p.id = m.producto_id) :
    (((((ms.filterMap (fun m =>
          (prods.find? (fun p => decide (p.id = m.producto_id))).map (fun p => (m, p)))).filter
            (fun x => decide (x.1.tipo = Tipo.ingreso))).filter
            (fun x => decide (x.1.estado_pago = some EstadoPago.debe))).map toRow).filter
            (fun r => decide (r.empresa = e))).map (fun r => (r.cantidad, r.costo_unitario))
      = (ms.filter (fun m => decide (m.tipo = Tipo.ingreso ∧
            m.estado_pago = some EstadoPago.debe ∧ m.empresa = e))).map
          (fun m => (m.cantidad, m.costo_unitario)) := by
  induction ms with
  | nil => rfl
  | cons m ms ih =>
    have hfk2 : ∀ m2 ∈ ms, ∃ p ∈ prods, p.id = m2.producto_id :=
      fun m2 hm2 => hfk m2 (List.mem_cons_of_mem _ hm2)
    obtain ⟨p, hp, hpe⟩ := hfk m (List.mem_cons_self _ _)
    obtain ⟨p0, hp0⟩ : ∃ p0, prods.find? (fun q => decide (q.id = m.producto_id)) = some p0 :=
      Option.isSome_iff_exists.mp (List.find?_isSome.mpr ⟨p, hp, by simpa using hpe⟩)
    rw [List.filterMap_cons, hp0]
    have htail := ih hfk2
    by_cases h1 : m.tipo = Tipo.ingreso <;>
      by_cases h2 : m.estado_pago = some EstadoPago.debe <;>
        by_cases h3 : m.empresa = e <;>
          simp [List.filter_cons, toRow, h1, h2, h3] at htail ⊢ <;>
            exact htail

/-- Equality of the projected cantidad and cost pairs transports to the row
count, the cantidad total and the monto total of the payables summary. -/
theorem agg_of_pairs_eq (L : List MovRow) (D : List Movimiento)
    (h : L.map (fun r => (r.cantidad, r.costo_unitario))
      = D.map (fun m => (m.cantidad, m.costo_unitario))) :
    L.length = D.length ∧
    (L.map (fun r => r.cantidad)).sum = (D.map (fun m => m.cantidad)).sum ∧
    (L.map monto).sum = (D.map (fun m => m.cantidad * m.costo_unitario.getD 0)).sum := by
  refine ⟨?_, ?_, ?_⟩
  · simpa using congrArg List.length h
  · have h2 := congrArg (List.map Prod.fst) h
    rw [List.map_map, List.map_map] at h2
    have h3 : L.map (fun r => r.cantidad) = D.map (fun m => m.cantidad) := h2
    rw [h3]
  · have h2 := congrArg (List.map (fun pr : Rat × Option Rat =>
      match pr.2 with | some c => pr.1 * c | none => 0)) h
    rw [List.map_map, List.map_map] at h2
    have h3 : L.map monto = D.map (fun m =>
        match m.costo_unitario with | some c => m.cantidad * c | none => 0) := h2
    rw [h3]
    refine congrArg List.sum (List.map_congr_left ?_)
    intro m hm
    cases hcu : m.costo_unitario <;> simp [hcu]

/-- C9: for every supplier key, the payables summary row is computed from
exactly the ingreso movements whose estado_pago is debe and whose empresa is
that key: its registros is their number, its cantidad_total their cantidad
sum, and its monto_total the sum of cantidad times costo_unitario with a
missing cost counted as 0. -/
theorem c9_resumen_por_empresa (db : DB) (e : Option String) (hwf : db.wf) :
    tab_cxp_resumen db e =
      ((db.movimientos.filter (fun m => decide (m.tipo = Tipo.ingreso ∧
          m.estado_pago = some EstadoPago.debe ∧ m.empresa = e))).length,
       ((db.movimientos.filter (fun m => decide (m.tipo = Tipo.ingreso ∧
          m.estado_pago = some EstadoPago.debe ∧ m.empresa = e))).map
          (fun m => m.cantidad)).sum,
       ((db.movimientos.filter (fun m => decide (m.tipo = Tipo.ingreso ∧
          m.estado_pago = some EstadoPago.debe ∧ m.empresa = e))).map
          (fun m => m.cantidad * m.costo_unitario.getD 0)).sum) := by
  obtain ⟨-, -, -, hfk⟩ := hwf
  have hrows : tab_cxp_rows db =
      (List.insertionSort ordDesc
        (((joinPairs db).filter (fun x => decide (Tipo.toStr x.1.tipo = "ingreso"))).filter
          (fun x => match x.1.estado_pago with
            | some ep => decide (EstadoPago.toStr ep = "debe")
            | none => false))).map toRow := rfl
  rw [tipoFilter_eq, estadoFilter_eq] at hrows
  have hperm : ((tab_cxp_rows db).filter (fun r => decide (r.empresa = e))).Perm
      (((((joinPairs db).filter (fun x => decide (x.1.tipo = Tipo.ingreso))).filter
          (fun x => decide (x.1.estado_pago = some EstadoPago.debe))).map toRow).filter
          (fun r => decide (r.empresa = e))) := by
    rw [hrows]
    exact ((List.perm_insertionSort ordDesc _).map toRow).filter _
  obtain ⟨hlen, hsum1, hsum2⟩ := agg_of_pairs_eq _ _ (cxp_pipeline_spec db.productos db.movimientos e hfk)
  simp only [tab_cxp_resumen, Prod.mk.injEq]
  refine ⟨?_, ?_, ?_⟩
  · rw [hperm.length_eq]
    exact hlen
  · rw [(hperm.map (fun r => r.cantidad)).sum_eq]
    exact hsum1
  · rw [(hperm.map monto).sum_eq]
    exact hsum2

/-- Witness for C9: the AgroX example of the spec, two owed receipts with
quantities 10 and 20 and unit costs 5 and 3 give registros 2, cantidad_total
30 and monto_total 110. -/
theorem c9_witness : tab_cxp_resumen agroDB (some "AgroX") = (2, 30, 110) := by
  rw [c9_resumen_por_empresa agroDB (some "AgroX") (by unfold DB.wf; decide)]
  norm_num [agroDB, List.filter_cons]

/-- C10: movimientos_df treats the product filter argument 0 like an absent
argument, because the clause is appended only when the Python value is
truthy; the call returns all movements subject to the other filters instead
of the empty set the nonexistent id 0 would select. -/
theorem c10_filtro_producto_cero (db : DB) (f_ini f_fin : Option String)
    (tipo estado_pago empresa : Option String) :
    movimientos_df db f_ini f_fin (some 0) tipo estado_pago empresa
      = movimientos_df db f_ini f_fin none tipo estado_pago empresa := rfl

end Qualisem
